import Mathlib

/-!
Verification of the Brinkadata capability-based authorization engine.

Shallow embedding of the policy logic in `backend/authz.py`, `backend/rbac.py`,
`backend/entitlements.py`, `backend/dependencies.py`, `backend/tenant.py` and
`backend/features.py`.  Capabilities, roles, plans and subscription statuses
are plain strings, exactly as in the Python source; the module-level dict
constants become total Lean functions returning `Option` (dict lookup) with
the same default-handling as the Python call sites.
-/

namespace Brinkadata

/-- Python's `str.lower()` restricted to ASCII, which is all the source ever
feeds it (role/plan/status tokens). -/
def py_lower (s : String) : String := ⟨s.data.map Char.toLower⟩

/-! ## Capability catalog and plan map — `backend/authz.py` -/

/-- `PLAN_CAPABILITIES["free"]` from `backend/authz.py`. -/
def freePlanCaps : Finset String :=
  {"project:view", "asset:view", "search:basic", "analysis:single_property"}

/-- `PLAN_CAPABILITIES["pro"]` from `backend/authz.py`. -/
def proPlanCaps : Finset String :=
  {"project:create", "project:view", "asset:manage", "asset:view",
   "search:basic", "search:advanced", "analysis:single_property",
   "analysis:portfolio", "export:csv"}

/-- `PLAN_CAPABILITIES["team"]` from `backend/authz.py` (listed separately in
the source, "same as pro for now"). -/
def teamPlanCaps : Finset String :=
  {"project:create", "project:view", "asset:manage", "asset:view",
   "search:basic", "search:advanced", "analysis:single_property",
   "analysis:portfolio", "export:csv"}

/-- `PLAN_CAPABILITIES["enterprise"]` from `backend/authz.py`. -/
def enterprisePlanCaps : Finset String :=
  {"project:create", "project:view", "asset:manage", "asset:view",
   "search:basic", "search:advanced", "analysis:single_property",
   "analysis:portfolio", "export:csv"}

/-- Dict lookup `PLAN_CAPABILITIES.get(key)` (no default): `none` for keys
outside the configured map. -/
def PLAN_CAPABILITIES_find (p : String) : Option (Finset String) :=
  if p = "free" then some freePlanCaps
  else if p = "pro" then some proPlanCaps
  else if p = "team" then some teamPlanCaps
  else if p = "enterprise" then some enterprisePlanCaps
  else none

/-- The configured plan keys of `PLAN_CAPABILITIES`. -/
def planKeys : List String := ["free", "pro", "team", "enterprise"]

/-! ## Role map — `backend/rbac.py` -/

/-- `ROLE_CAPABILITIES["owner"]` from `backend/rbac.py`. -/
def ownerRoleCaps : Finset String :=
  {"project:create", "project:view", "asset:manage", "asset:view",
   "search:basic", "search:advanced", "analysis:single_property",
   "analysis:portfolio", "export:csv"}

/-- `ROLE_CAPABILITIES["admin"]` from `backend/rbac.py`. -/
def adminRoleCaps : Finset String :=
  {"project:create", "project:view", "asset:manage", "asset:view",
   "search:basic", "search:advanced", "analysis:single_property",
   "analysis:portfolio", "export:csv"}

/-- `ROLE_CAPABILITIES["member"]` from `backend/rbac.py`. -/
def memberRoleCaps : Finset String :=
  {"project:create", "project:view", "asset:manage", "asset:view",
   "search:basic", "search:advanced", "analysis:single_property",
   "analysis:portfolio", "export:csv"}

/-- `ROLE_CAPABILITIES["read_only"]` from `backend/rbac.py`. -/
def readOnlyRoleCaps : Finset String :=
  {"project:view", "asset:view", "search:basic", "analysis:single_property"}

/-- Dict lookup `ROLE_CAPABILITIES.get(key)` (no default). -/
def ROLE_CAPABILITIES_find (r : String) : Option (Finset String) :=
  if r = "owner" then some ownerRoleCaps
  else if r = "admin" then some adminRoleCaps
  else if r = "member" then some memberRoleCaps
  else if r = "read_only" then some readOnlyRoleCaps
  else none

/-- The configured role keys of `ROLE_CAPABILITIES`. -/
def roleKeys : List String := ["owner", "admin", "member", "read_only"]

/-! ## Effective capability calculator — `backend/rbac.py` -/

/-- The spec's `plan_capabilities(plan)` accessor: lowercase-normalised dict
lookup with empty-set default, as performed by `effective_capabilities` in
`backend/rbac.py` (`PLAN_CAPABILITIES.get(plan_lower, set())`). -/
def plan_capabilities (plan : String) : Finset String :=
  (PLAN_CAPABILITIES_find (py_lower plan)).getD ∅

/-- The spec's `role_capabilities(role)` accessor: lowercase-normalised dict
lookup with empty-set default (`ROLE_CAPABILITIES.get(role_lower, set())`). -/
def role_capabilities (role : String) : Finset String :=
  (ROLE_CAPABILITIES_find (py_lower role)).getD ∅

/-- `effective_capabilities(plan, role)` from `backend/rbac.py`: lowercase both
tokens, look each up with empty-set default, return the intersection. -/
def effective_capabilities (plan role : String) : Finset String :=
  ((PLAN_CAPABILITIES_find (py_lower plan)).getD ∅) ∩
    ((ROLE_CAPABILITIES_find (py_lower role)).getD ∅)

/-- `has_effective_capability(plan, role, capability)` from `backend/rbac.py`. -/
def has_effective_capability (plan role capability : String) : Bool :=
  capability ∈ effective_capabilities plan role

/-! ## Role and plan hierarchies — `backend/authz.py` -/

/-- Dict lookup `ROLE_HIERARCHY.get(key, 0)` from `backend/authz.py` (the same
table also appears in `backend/rbac.py`). -/
def ROLE_HIERARCHY_get (r : String) : Nat :=
  if r = "owner" then 4
  else if r = "admin" then 3
  else if r = "member" then 2
  else if r = "read_only" then 1
  else 0

/-- `role_level(role)` from `backend/rbac.py`; identical to the inline lookup
`ROLE_HIERARCHY.get(user_role.lower(), 0)` in `role_at_least`
(`backend/authz.py`). -/
def role_level (role : String) : Nat := ROLE_HIERARCHY_get (py_lower role)

/-- `role_at_least(user_role, required_role)` from `backend/authz.py`. -/
def role_at_least (user_role required_role : String) : Bool :=
  decide (role_level user_role ≥ role_level required_role)

/-- Dict lookup `PLAN_HIERARCHY.get(key, 0)` from `backend/authz.py`. -/
def PLAN_HIERARCHY_get (p : String) : Nat :=
  if p = "free" then 1
  else if p = "pro" then 2
  else if p = "team" then 3
  else if p = "enterprise" then 4
  else 0

/-- The spec's `plan_rank(plan)`: the lookup
`PLAN_HIERARCHY.get(plan.lower(), 0)` that `plan_at_least` in
`backend/authz.py` performs on each argument. -/
def plan_rank (plan : String) : Nat := PLAN_HIERARCHY_get (py_lower plan)

/-- `plan_at_least(account_plan, required_plan)` from `backend/authz.py`. -/
def plan_at_least (account_plan required_plan : String) : Bool :=
  decide (plan_rank account_plan ≥ plan_rank required_plan)

/-! ## Subscription model — `backend/entitlements.py` -/

/-- The `Subscription` dataclass from `backend/entitlements.py`. -/
structure Subscription where
  id : Int
  account_id : Int
  status : String
  plan_name : String
  provider : String
  provider_customer_id : Option String := none
  provider_subscription_id : Option String := none
  current_period_end : Option String := none
  cancel_at_period_end : Bool := false
  created_at : Option String := none
  updated_at : Option String := none
deriving Repr, DecidableEq

/-- `Subscription.is_active`: `self.status in ("active", "trialing")`. -/
def Subscription.is_active (s : Subscription) : Bool :=
  s.status == "active" || s.status == "trialing"

/-- `Subscription.is_past_due`: `self.status == "past_due"`. -/
def Subscription.is_past_due (s : Subscription) : Bool :=
  s.status == "past_due"

/-- `Subscription.is_canceled`: `self.status == "canceled"`. -/
def Subscription.is_canceled (s : Subscription) : Bool :=
  s.status == "canceled"

/-- Python `x or default` applied to a nullable string column (both `None` and
the empty string are falsy and fall back to the default). -/
def py_or_str (v : Option String) (d : String) : String :=
  match v with
  | none => d
  | some s => if s = "" then d else s

/-- A raw row of the `subscriptions` table as selected by `get_subscription`
in `backend/entitlements.py`; string columns are nullable and
`cancel_at_period_end` is a SQLite integer fed through `bool(...)`. -/
structure SubscriptionRow where
  id : Int
  account_id : Int
  status : Option String := none
  plan_name : Option String := none
  provider : Option String := none
  provider_customer_id : Option String := none
  provider_subscription_id : Option String := none
  current_period_end : Option String := none
  cancel_at_period_end : Int := 0
  created_at : Option String := none
  updated_at : Option String := none
deriving Repr, DecidableEq

/-- `get_subscription(conn, account_id)` from `backend/entitlements.py`, with
the single-row SQL lookup (`SELECT ... WHERE account_id = ? LIMIT 1`)
abstracted into the `stored` argument: `some row` when the account has a
subscriptions row, `none` when it has none. -/
def get_subscription (stored : Option SubscriptionRow) (account_id : Int) :
    Subscription :=
  match stored with
  | some row =>
    { id := row.id
      account_id := row.account_id
      status := py_or_str row.status "active"
      plan_name := py_or_str row.plan_name "free"
      provider := py_or_str row.provider "manual"
      provider_customer_id := row.provider_customer_id
      provider_subscription_id := row.provider_subscription_id
      current_period_end := row.current_period_end
      cancel_at_period_end := row.cancel_at_period_end != 0
      created_at := row.created_at
      updated_at := row.updated_at }
  | none =>
    { id := 0
      account_id := account_id
      status := "active"
      plan_name := "free"
      provider := "manual" }

/-- `get_effective_plan(subscription)` from `backend/entitlements.py`. -/
def get_effective_plan (s : Subscription) : String :=
  if s.is_active then s.plan_name else "free"

/-- `get_entitlements(role, subscription)` from `backend/entitlements.py`. -/
def get_entitlements (role : String) (s : Subscription) : Finset String :=
  effective_capabilities (get_effective_plan s) role

/-- `has_entitlement(role, subscription, capability)`. -/
def has_entitlement (role : String) (s : Subscription) (capability : String) :
    Bool :=
  capability ∈ get_entitlements role s

/-- `update_subscription_status` from `backend/entitlements.py`: the SQL
`UPDATE subscriptions SET status = ?, updated_at = datetime('now') WHERE
account_id = ?` as it acts on the account's stored row; `now` stands for the
database timestamp. -/
def update_subscription_status (row : SubscriptionRow) (status now : String) :
    SubscriptionRow :=
  { row with status := some status, updated_at := some now }

/-- `update_subscription_plan` from `backend/entitlements.py`: sets the plan,
resets status to `'active'`, and touches `updated_at`. -/
def update_subscription_plan (row : SubscriptionRow) (plan_name now : String) :
    SubscriptionRow :=
  { row with plan_name := some plan_name, status := some "active",
             updated_at := some now }

/-! ## Capability enforcement dependency — `backend/dependencies.py` -/

/-- FastAPI's `HTTPException` payload: status code and detail string. -/
structure HttpError where
  status_code : Nat
  detail : String
deriving Repr, DecidableEq

/-- The `AuthContext` pydantic model from `backend/auth_context.py`. -/
structure AuthContext where
  user_id : Int
  account_id : Int
  role : String
  email : String
  subscription_status : String
  subscription_plan : String
  effective_plan : String
  capabilities : Finset String
  cancel_at_period_end : Bool := false
  current_period_end : Option String := none
deriving DecidableEq

/-- The inner `_check_capability` closure produced by
`require_capability(capability)` in `backend/dependencies.py`: raising an
`HTTPException` is modelled as returning `.error`. -/
def require_capability_check (capability : String) (ctx : AuthContext) :
    Except HttpError AuthContext :=
  if capability ∉ ctx.capabilities then
    if ctx.subscription_status = "past_due" then
      .error ⟨402, "Payment required - please update your billing information"⟩
    else
      .error ⟨403,
        "Insufficient permissions - this feature is not available with your current access level"⟩
  else
    .ok ctx

/-! ## Tenant scope guard — `backend/tenant.py` -/

/-- The deployment environment selector (`ENV` → `IS_DEV`/`IS_STAGING`/
`IS_PROD` in `backend/config.py`); `backend/tenant.py` branches only on
`IS_DEV` versus everything else. -/
inductive Env where
  | dev
  | staging
  | prod
deriving Repr, DecidableEq

/-- A fetched database row as seen by the tenant guards.  `isDict` tells a
Python `dict` from a `sqlite3.Row`; `accountIdField` is `none` when the
`account_id` column is absent from the row altogether, `some none` when the
column is present but NULL, and `some (some v)` when it holds `v`. -/
structure DbRow where
  isDict : Bool
  accountIdField : Option (Option Int)
deriving Repr, DecidableEq

/-- Outcome of a tenant-guard call: normal return; the `RuntimeError`
`assert_rows_scoped` raises for a `sqlite3.Row` missing the `account_id`
column (fatal in every environment); the `HTTPException(500)` raised in
staging/prod; or the `IndexError` a `sqlite3.Row` lookup raises inside
`assert_row_scoped`, which its `except (KeyError, TypeError)` clause does not
catch and which therefore escapes uncaught (fatal in every environment). -/
inductive TenantCheck where
  | ok
  | fatalRuntimeError
  | fatalHttp500
  | fatalIndexError
deriving Repr, DecidableEq

/-- The per-row `account_id` extraction in `assert_rows_scoped`
(`backend/tenant.py`): dicts use `row.get("account_id")` (absent key reads as
`None`); a `sqlite3.Row` without the column raises (`KeyError`/`IndexError`),
which the caller converts into a `RuntimeError`. -/
def row_account_id_strict (row : DbRow) : Except Unit (Option Int) :=
  if row.isDict then .ok (row.accountIdField.getD none)
  else
    match row.accountIdField with
    | none => .error ()
    | some v => .ok v

/-- The loop body of `assert_rows_scoped`: walk the rows in order, abort with
the first missing-column error, otherwise count rows whose `account_id` is
non-NULL and differs from the expected account. -/
def mismatch_count (rows : List DbRow) (account_id : Int) : Except Unit Nat :=
  match rows with
  | [] => .ok 0
  | r :: rs =>
    match row_account_id_strict r with
    | .error e => .error e
    | .ok v =>
      match mismatch_count rs account_id with
      | .error e => .error e
      | .ok n =>
        .ok ((match v with
              | none => 0
              | some x => if x = account_id then 0 else 1) + n)

/-- `assert_rows_scoped(rows, account_id)` from `backend/tenant.py`, with the
ambient `IS_DEV` global made an explicit `env` argument. -/
def assert_rows_scoped (env : Env) (rows : List DbRow) (account_id : Int) :
    TenantCheck :=
  match mismatch_count rows account_id with
  | .error _ => .fatalRuntimeError
  | .ok n =>
    if 0 < n then
      match env with
      | .dev => .ok
      | .staging => .fatalHttp500
      | .prod => .fatalHttp500
    else .ok

/-- The `account_id` extraction in `assert_row_scoped` (`backend/tenant.py`):
dicts use `row.get("account_id")` (absent key reads as `None`); for a
`sqlite3.Row` the source wraps `row["account_id"]` in
`except (KeyError, TypeError)`, but a `sqlite3.Row` missing the column
raises `IndexError`, which that clause does not catch — the lookup error
escapes the try block. -/
def row_account_id_single (row : DbRow) : Except Unit (Option Int) :=
  if row.isDict then .ok (row.accountIdField.getD none)
  else
    match row.accountIdField with
    | none => .error ()
    | some v => .ok v

/-- `assert_row_scoped(row, account_id)` from `backend/tenant.py`, with the
ambient `IS_DEV` global made an explicit `env` argument.  An uncaught
`IndexError` from the `sqlite3.Row` lookup aborts the call in every
environment. -/
def assert_row_scoped (env : Env) (row : Option DbRow) (account_id : Int) :
    TenantCheck :=
  match row with
  | none => .ok
  | some r =>
    match row_account_id_single r with
    | .error _ => .fatalIndexError
    | .ok none => .ok
    | .ok (some v) =>
      if v = account_id then .ok
      else
        match env with
        | .dev => .ok
        | .staging => .fatalHttp500
        | .prod => .fatalHttp500

/-! ## Plan limits — `backend/authz.py` -/

/-- `PLAN_LIMITS["free"]` as a key lookup.  Python booleans are modelled as
the integers 0/1 (`bool` is an `int` subtype and these values flow into `>=`
comparisons in `check_usage_against_limit`). -/
def free_plan_limits (k : String) : Option Int :=
  if k = "max_saved_deals" then some 25
  else if k = "max_scenarios" then some 3
  else if k = "can_export_csv" then some 0
  else if k = "can_use_irr_npv" then some 0
  else if k = "can_use_api" then some 0
  else none

/-- `PLAN_LIMITS["pro"]`. -/
def pro_plan_limits (k : String) : Option Int :=
  if k = "max_saved_deals" then some 250
  else if k = "max_scenarios" then some 25
  else if k = "can_export_csv" then some 1
  else if k = "can_use_irr_npv" then some 1
  else if k = "can_use_api" then some 0
  else none

/-- `PLAN_LIMITS["team"]`. -/
def team_plan_limits (k : String) : Option Int :=
  if k = "max_saved_deals" then some 1000
  else if k = "max_scenarios" then some 100
  else if k = "can_export_csv" then some 1
  else if k = "can_use_irr_npv" then some 1
  else if k = "can_use_api" then some 1
  else none

/-- `PLAN_LIMITS["enterprise"]`. -/
def enterprise_plan_limits (k : String) : Option Int :=
  if k = "max_saved_deals" then some 10000
  else if k = "max_scenarios" then some 500
  else if k = "can_export_csv" then some 1
  else if k = "can_use_irr_npv" then some 1
  else if k = "can_use_api" then some 1
  else none

/-- `get_plan_limits(plan)` from `backend/authz.py`:
`PLAN_LIMITS.get(plan.lower(), PLAN_LIMITS["free"])`. -/
def get_plan_limits (plan : String) : String → Option Int :=
  if py_lower plan = "free" then free_plan_limits
  else if py_lower plan = "pro" then pro_plan_limits
  else if py_lower plan = "team" then team_plan_limits
  else if py_lower plan = "enterprise" then enterprise_plan_limits
  else free_plan_limits

/-- `get_plan_limit(plan, limit_name)` from `backend/authz.py`:
`get_plan_limits(plan).get(limit_name, 0)`. -/
def get_plan_limit (plan limit_name : String) : Int :=
  (get_plan_limits plan limit_name).getD 0

/-- The `limit_name.replace('max_', '')` call in `check_usage_against_limit`:
a left-to-right scan replacing every non-overlapping occurrence of `"max_"`
with the empty string, exactly Python's `str.replace` for this pattern. -/
def drop_max_marker : List Char → List Char
  | 'm' :: 'a' :: 'x' :: '_' :: rest => drop_max_marker rest
  | c :: rest => c :: drop_max_marker rest
  | [] => []

/-- `check_usage_against_limit(current_usage, plan, limit_name)` from
`backend/authz.py`: raises `HTTPException(402)` when
`current_usage >= limit`, modelled as `.error`. -/
def check_usage_against_limit (current_usage : Int) (plan limit_name : String) :
    Except HttpError Unit :=
  let limit := get_plan_limit plan limit_name
  if current_usage ≥ limit then
    .error ⟨402,
      "Plan limit reached: " ++ toString current_usage ++ "/" ++
        toString limit ++ " " ++ String.mk (drop_max_marker limit_name.data) ++
        ". Upgrade to continue."⟩
  else
    .ok ()

/-! ## Feature gating — `backend/features.py` -/

/-- The frozen `Plan` dataclass from `backend/features.py`. -/
structure Plan where
  name : String
  saved_deals_limit : Int
  scenarios_limit : Int
  exports_enabled : Bool
  irr_npv_enabled : Bool
  api_access_enabled : Bool
deriving Repr, DecidableEq

/-- `PLANS["free"]` from `backend/features.py`. -/
def freePlan : Plan := ⟨"free", 25, 3, false, false, false⟩

/-- `PLANS["pro"]`. -/
def proPlan : Plan := ⟨"pro", 250, 25, true, true, false⟩

/-- `PLANS["team"]`. -/
def teamPlan : Plan := ⟨"team", 1000, 100, true, true, true⟩

/-- `PLANS["enterprise"]`. -/
def enterprisePlan : Plan := ⟨"enterprise", 10000, 500, true, true, true⟩

/-- Dict lookup `PLANS.get(key)` (no default). -/
def PLANS_find (k : String) : Option Plan :=
  if k = "free" then some freePlan
  else if k = "pro" then some proPlan
  else if k = "team" then some teamPlan
  else if k = "enterprise" then some enterprisePlan
  else none

/-- `get_limit(account_id, limit_name)` from `backend/features.py`, with the
DB-backed `get_account_plan(account_id)` result supplied as `plan_name` (that
helper lowercases its answer and falls back to `"free"`). -/
def get_limit (plan_name limit_name : String) : Int :=
  let plan := (PLANS_find plan_name).getD freePlan
  if limit_name = "saved_deals" then plan.saved_deals_limit
  else if limit_name = "scenarios" then plan.scenarios_limit
  else 1000000

/-- `check_usage_limit(account_id, limit_name, current_usage)` from
`backend/features.py`, with the account's plan (from `get_account_plan`) and
the usage count (from `get_usage_stats` when the caller passes `None`)
supplied explicitly; raising `UsageLimitError` is modelled as `.error`. -/
def check_usage_limit (plan_name limit_name : String) (current_usage : Int) :
    Except String Unit :=
  let limit := get_limit plan_name limit_name
  if current_usage ≥ limit then
    .error ("Limit reached for " ++ limit_name ++ ": " ++
      toString current_usage ++ "/" ++ toString limit)
  else
    .ok ()

/-! ## Helper lemmas -/

lemma PLAN_CAPABILITIES_find_eq_none {p : String} (hp : p ∉ planKeys) :
    PLAN_CAPABILITIES_find p = none := by
  simp only [planKeys, List.mem_cons, List.not_mem_nil, or_false] at hp
  push_neg at hp
  obtain ⟨h1, h2, h3, h4⟩ := hp
  simp [PLAN_CAPABILITIES_find, h1, h2, h3, h4]

lemma ROLE_CAPABILITIES_find_eq_none {r : String} (hr : r ∉ roleKeys) :
    ROLE_CAPABILITIES_find r = none := by
  simp only [roleKeys, List.mem_cons, List.not_mem_nil, or_false] at hr
  push_neg at hr
  obtain ⟨h1, h2, h3, h4⟩ := hr
  simp [ROLE_CAPABILITIES_find, h1, h2, h3, h4]

/-! ## Claim theorems -/

/-- C1: for every plan string and role string, `effective_capabilities` equals
the intersection of the plan's configured capability set and the role's
configured capability set; hence it is a subset of `plan_capabilities(plan)`
and of `role_capabilities(role)`, and it is empty whenever the plan or the
role (normalised to lowercase, as all token input is) is not a configured
key. -/
theorem effective_capabilities_intersection_law (plan role : String) :
    effective_capabilities plan role
        = plan_capabilities plan ∩ role_capabilities role
    ∧ effective_capabilities plan role ⊆ plan_capabilities plan
    ∧ effective_capabilities plan role ⊆ role_capabilities role
    ∧ (py_lower plan ∉ planKeys → effective_capabilities plan role = ∅)
    ∧ (py_lower role ∉ roleKeys → effective_capabilities plan role = ∅) := by
  refine ⟨rfl, Finset.inter_subset_left, Finset.inter_subset_right, ?_, ?_⟩
  · intro hp
    unfold effective_capabilities
    rw [PLAN_CAPABILITIES_find_eq_none hp]
    simp
  · intro hr
    unfold effective_capabilities
    rw [ROLE_CAPABILITIES_find_eq_none hr]
    simp

/-- Witness for C1: the fail-closed branches at explicit unknown tokens. -/
theorem effective_capabilities_intersection_law_witness :
    effective_capabilities "platinum" "member" = ∅
    ∧ effective_capabilities "pro" "superadmin" = ∅ :=
  ⟨(effective_capabilities_intersection_law "platinum" "member").2.2.2.1
      (by decide),
   (effective_capabilities_intersection_law "pro" "superadmin").2.2.2.2
      (by decide)⟩

/-- C2: the effective plan is the subscription's `plan_name` when status is
`active` or `trialing` and `"free"` when status is `past_due` or `canceled`,
and the status-update mutator leaves the stored `plan_name` unchanged. -/
theorem effective_plan_status_rule (s : Subscription) :
    ((s.status = "active" ∨ s.status = "trialing") →
        get_effective_plan s = s.plan_name)
    ∧ ((s.status = "past_due" ∨ s.status = "canceled") →
        get_effective_plan s = "free")
    ∧ (∀ (row : SubscriptionRow) (st now : String),
        (update_subscription_status row st now).plan_name = row.plan_name) := by
  refine ⟨?_, ?_, fun row st now => rfl⟩
  · intro h
    have ha : s.is_active = true := by
      unfold Subscription.is_active
      rcases h with h | h <;> rw [h] <;> decide
    simp [get_effective_plan, ha]
  · intro h
    have ha : s.is_active = false := by
      unfold Subscription.is_active
      rcases h with h | h <;> rw [h] <;> decide
    simp [get_effective_plan, ha]

/-- The spec's downgrade scenario row: a pro/active subscription row. -/
def sampleProRow : SubscriptionRow :=
  { id := 1, account_id := 7, status := some "active",
    plan_name := some "pro", provider := some "manual" }

/-- Witness for C2: the spec's end-to-end downgrade scenario on
`sampleProRow`. -/
theorem effective_plan_status_rule_witness :
    get_effective_plan (get_subscription (some sampleProRow) 7) = "pro"
    ∧ (update_subscription_status sampleProRow "past_due" "t1").plan_name
        = some "pro"
    ∧ get_effective_plan
        (get_subscription
          (some (update_subscription_status sampleProRow "past_due" "t1")) 7)
        = "free" :=
  ⟨(effective_plan_status_rule (get_subscription (some sampleProRow) 7)).1
      (Or.inl rfl),
   ((effective_plan_status_rule (get_subscription (some sampleProRow) 7)).2.2
      sampleProRow "past_due" "t1").trans rfl,
   (effective_plan_status_rule
      (get_subscription
        (some (update_subscription_status sampleProRow "past_due" "t1")) 7)).2.1
      (Or.inl rfl)⟩

/-- C3: the capability check returns the context when the capability is in the
caller's effective set; when absent it denies with 402 exactly when the
subscription status is `past_due` and with 403 otherwise. -/
theorem require_capability_decision (capability : String) (ctx : AuthContext) :
    (capability ∈ ctx.capabilities →
        require_capability_check capability ctx = .ok ctx)
    ∧ (capability ∉ ctx.capabilities → ctx.subscription_status = "past_due" →
        require_capability_check capability ctx = .error
          ⟨402, "Payment required - please update your billing information"⟩)
    ∧ (capability ∉ ctx.capabilities → ctx.subscription_status ≠ "past_due" →
        require_capability_check capability ctx = .error
          ⟨403,
            "Insufficient permissions - this feature is not available with your current access level"⟩) := by
  refine ⟨?_, ?_, ?_⟩
  · intro h
    simp [require_capability_check, h]
  · intro h1 h2
    simp [require_capability_check, h1, h2]
  · intro h1 h2
    simp [require_capability_check, h1, h2]

/-- A pro/active owner context as `require_auth_context` would build it. -/
def ownerProCtx : AuthContext :=
  { user_id := 1, account_id := 7, role := "owner", email := "o@example.com",
    subscription_status := "active", subscription_plan := "pro",
    effective_plan := "pro",
    capabilities := effective_capabilities "pro" "owner" }

/-- The same owner after the subscription lapses to past_due (effective plan
free, capabilities recomputed accordingly). -/
def ownerPastDueCtx : AuthContext :=
  { user_id := 1, account_id := 7, role := "owner", email := "o@example.com",
    subscription_status := "past_due", subscription_plan := "pro",
    effective_plan := "free",
    capabilities := effective_capabilities "free" "owner" }

/-- A read_only member of an active pro account. -/
def readOnlyProCtx : AuthContext :=
  { user_id := 2, account_id := 7, role := "read_only",
    email := "r@example.com", subscription_status := "active",
    subscription_plan := "pro", effective_plan := "pro",
    capabilities := effective_capabilities "pro" "read_only" }

/-- Witness for C3: the spec's `export:csv` scenario over the three concrete
contexts. -/
theorem require_capability_decision_witness :
    require_capability_check "export:csv" ownerProCtx = .ok ownerProCtx
    ∧ require_capability_check "export:csv" ownerPastDueCtx = .error
        ⟨402, "Payment required - please update your billing information"⟩
    ∧ require_capability_check "export:csv" readOnlyProCtx = .error
        ⟨403,
          "Insufficient permissions - this feature is not available with your current access level"⟩ :=
  ⟨(require_capability_decision "export:csv" ownerProCtx).1 (by decide),
   (require_capability_decision "export:csv" ownerPastDueCtx).2.1 (by decide)
      (by decide),
   (require_capability_decision "export:csv" readOnlyProCtx).2.2 (by decide)
      (by decide)⟩

/-- C6: for an account with no stored subscriptions row, `get_subscription`
synthesizes `{status: active, plan_name: free, provider: manual}` for that
account; the function is total, so a null/absent result is impossible. -/
theorem get_subscription_default (account_id : Int) :
    (get_subscription none account_id).status = "active"
    ∧ (get_subscription none account_id).plan_name = "free"
    ∧ (get_subscription none account_id).provider = "manual"
    ∧ (get_subscription none account_id).account_id = account_id
    ∧ (get_subscription none account_id).id = 0 :=
  ⟨rfl, rfl, rfl, rfl, rfl⟩

/-- C7: for every plan string, the effective capabilities of the `read_only`
role contain none of `asset:manage`, `project:create`, `export:csv`. -/
theorem read_only_excludes_write_caps (plan : String) :
    effective_capabilities plan "read_only" ∩
      ({"asset:manage", "project:create", "export:csv"} : Finset String)
      = ∅ := by
  rw [Finset.eq_empty_iff_forall_not_mem]
  intro x hx
  rw [Finset.mem_inter] at hx
  obtain ⟨h1, h2⟩ := hx
  unfold effective_capabilities at h1
  rw [Finset.mem_inter] at h1
  have h3 : x ∈ readOnlyRoleCaps := by
    have h4 := h1.2
    have h5 : (ROLE_CAPABILITIES_find (py_lower "read_only")).getD ∅
        = readOnlyRoleCaps := rfl
    rwa [h5] at h4
  simp only [Finset.mem_insert, Finset.mem_singleton] at h2
  rcases h2 with h | h | h <;> subst h <;> revert h3 <;> decide

/-- C9: whenever the status is neither `active` nor `trialing` — including
tokens outside the documented four — `get_effective_plan` returns `"free"`:
the downgrade branch is the total catch-all. -/
theorem effective_plan_catch_all (s : Subscription)
    (h1 : s.status ≠ "active") (h2 : s.status ≠ "trialing") :
    get_effective_plan s = "free" := by
  have ha : s.is_active = false := by
    unfold Subscription.is_active
    simp only [Bool.or_eq_false_iff, beq_eq_false_iff_ne, ne_eq]
    exact ⟨h1, h2⟩
  simp [get_effective_plan, ha]

/-- Witness for C9: a subscription with an empty status string (outside the
four documented tokens) is downgraded to free. -/
theorem effective_plan_catch_all_witness :
    get_effective_plan
      { id := 0, account_id := 1, status := "", plan_name := "pro",
        provider := "manual" } = "free" :=
  effective_plan_catch_all _ (by decide) (by decide)

/-! Lemmas for the tenant-guard claims (C4). -/

lemma mismatch_count_error {rows : List DbRow} {acc : Int}
    (h : ∃ r ∈ rows, r.isDict = false ∧ r.accountIdField = none) :
    mismatch_count rows acc = .error () := by
  induction rows with
  | nil => simp at h
  | cons r rs ih =>
    rcases h with ⟨x, hx, hxd, hxf⟩
    rcases List.mem_cons.mp hx with h1 | h1
    · subst h1
      unfold mismatch_count row_account_id_strict
      simp [hxd, hxf]
    · have hrec := ih ⟨x, h1, hxd, hxf⟩
      unfold mismatch_count
      cases hr : row_account_id_strict r <;> simp [hr, hrec]

lemma mismatch_count_ok_all_missing {rows : List DbRow} {acc : Int}
    (h : ∀ r ∈ rows, r.isDict = true ∧ r.accountIdField = none) :
    mismatch_count rows acc = .ok 0 := by
  induction rows with
  | nil => rfl
  | cons r rs ih =>
    have hr := h r (List.mem_cons_self r rs)
    have hrs := ih (fun x hx => h x (List.mem_cons_of_mem r hx))
    unfold mismatch_count row_account_id_strict
    simp [hr.1, hr.2, hrs]

/-- C4 counterexample: in the prod environment, a dict row with no
`account_id` key passes both `assert_rows_scoped` and `assert_row_scoped`
normally — contradicting "always a fatal error regardless of environment ...
whether the row is a dict or a database Row object". -/
theorem missing_account_id_not_always_fatal :
    assert_rows_scoped Env.prod [{ isDict := true, accountIdField := none }] 7
        = TenantCheck.ok
    ∧ assert_row_scoped Env.prod
        (some { isDict := true, accountIdField := none }) 7
        = TenantCheck.ok := by
  refine ⟨rfl, rfl⟩

/-- C4 amended: a row lacking the `account_id` field is fatal in every
environment when it is a database `sqlite3.Row` — `assert_rows_scoped`
raises `RuntimeError`, and `assert_row_scoped` lets the row lookup's
`IndexError` escape its `except (KeyError, TypeError)` clause uncaught —
but a dict row lacking the key is read via `.get` as `account_id = None` and
passes both checks normally in every environment. -/
theorem missing_account_id_policy (env : Env) (rows : List DbRow)
    (account_id : Int) (row : DbRow) :
    ((∃ r ∈ rows, r.isDict = false ∧ r.accountIdField = none) →
        assert_rows_scoped env rows account_id = .fatalRuntimeError)
    ∧ ((∀ r ∈ rows, r.isDict = true ∧ r.accountIdField = none) →
        assert_rows_scoped env rows account_id = .ok)
    ∧ (row.isDict = false → row.accountIdField = none →
        assert_row_scoped env (some row) account_id = .fatalIndexError)
    ∧ (row.isDict = true → row.accountIdField = none →
        assert_row_scoped env (some row) account_id = .ok) := by
  refine ⟨?_, ?_, ?_, ?_⟩
  · intro h
    unfold assert_rows_scoped
    rw [mismatch_count_error h]
  · intro h
    unfold assert_rows_scoped
    rw [mismatch_count_ok_all_missing h]
    simp
  · intro h1 h2
    unfold assert_row_scoped row_account_id_single
    simp [h1, h2]
  · intro h1 h2
    unfold assert_row_scoped row_account_id_single
    simp [h1, h2]

/-- Witness for C4 (amended): the Row cases are fatal even in dev; the dict
cases pass even in staging. -/
theorem missing_account_id_policy_witness :
    assert_rows_scoped Env.dev [{ isDict := false, accountIdField := none }] 9
        = TenantCheck.fatalRuntimeError
    ∧ assert_rows_scoped Env.staging
        [{ isDict := true, accountIdField := none }] 9 = TenantCheck.ok
    ∧ assert_row_scoped Env.dev
        (some { isDict := false, accountIdField := none }) 9
        = TenantCheck.fatalIndexError
    ∧ assert_row_scoped Env.staging
        (some { isDict := true, accountIdField := none }) 9
        = TenantCheck.ok :=
  ⟨(missing_account_id_policy Env.dev
      [{ isDict := false, accountIdField := none }] 9
      { isDict := false, accountIdField := none }).1
      ⟨{ isDict := false, accountIdField := none }, by decide, by decide⟩,
   (missing_account_id_policy Env.staging
      [{ isDict := true, accountIdField := none }] 9
      { isDict := true, accountIdField := none }).2.1 (by decide),
   (missing_account_id_policy Env.dev
      [{ isDict := false, accountIdField := none }] 9
      { isDict := false, accountIdField := none }).2.2.1 rfl rfl,
   (missing_account_id_policy Env.staging
      [{ isDict := true, accountIdField := none }] 9
      { isDict := true, accountIdField := none }).2.2.2 rfl rfl⟩

/-! Lemmas for the hierarchy claims (C5). -/

lemma ROLE_HIERARCHY_get_eq_zero {r : String} (h : r ∉ roleKeys) :
    ROLE_HIERARCHY_get r = 0 := by
  simp only [roleKeys, List.mem_cons, List.not_mem_nil, or_false] at h
  push_neg at h
  obtain ⟨h1, h2, h3, h4⟩ := h
  simp [ROLE_HIERARCHY_get, h1, h2, h3, h4]

lemma ROLE_HIERARCHY_get_pos {r : String} (h : r ∈ roleKeys) :
    0 < ROLE_HIERARCHY_get r := by
  simp only [roleKeys, List.mem_cons, List.not_mem_nil, or_false] at h
  rcases h with h | h | h | h <;> subst h <;> decide

lemma PLAN_HIERARCHY_get_eq_zero {p : String} (h : p ∉ planKeys) :
    PLAN_HIERARCHY_get p = 0 := by
  simp only [planKeys, List.mem_cons, List.not_mem_nil, or_false] at h
  push_neg at h
  obtain ⟨h1, h2, h3, h4⟩ := h
  simp [PLAN_HIERARCHY_get, h1, h2, h3, h4]

lemma PLAN_HIERARCHY_get_pos {p : String} (h : p ∈ planKeys) :
    0 < PLAN_HIERARCHY_get p := by
  simp only [planKeys, List.mem_cons, List.not_mem_nil, or_false] at h
  rcases h with h | h | h | h <;> subst h <;> decide

/-- C5 counterexample: comparisons whose right operand is an unknown token
return true, not false — `role_at_least("owner", "superadmin")` and
`plan_at_least("pro", "platinum")` both hold, because the unknown token ranks
0 and every rank is ≥ 0. -/
theorem unknown_token_comparison_not_always_false :
    role_at_least "owner" "superadmin" = true
    ∧ plan_at_least "pro" "platinum" = true := by
  decide

/-- C5 amended: an unknown role/plan token ranks as 0; a comparison is false
when the *left* operand is unknown and the right operand is a defined token,
but a comparison whose *right* operand is unknown always returns true. -/
theorem unknown_token_rank_zero (u a b : String) :
    (py_lower u ∉ roleKeys → role_level u = 0)
    ∧ (py_lower u ∉ roleKeys → py_lower b ∈ roleKeys →
        role_at_least u b = false)
    ∧ (py_lower u ∉ roleKeys → role_at_least a u = true)
    ∧ (py_lower u ∉ planKeys → plan_rank u = 0)
    ∧ (py_lower u ∉ planKeys → py_lower b ∈ planKeys →
        plan_at_least u b = false)
    ∧ (py_lower u ∉ planKeys → plan_at_least a u = true) := by
  refine ⟨?_, ?_, ?_, ?_, ?_, ?_⟩
  · intro hu
    exact ROLE_HIERARCHY_get_eq_zero hu
  · intro hu hb
    have h0 : role_level u = 0 := ROLE_HIERARCHY_get_eq_zero hu
    have h1 : 0 < role_level b := ROLE_HIERARCHY_get_pos hb
    simp only [role_at_least, h0, decide_eq_false_iff_not, ge_iff_le, not_le]
    exact h1
  · intro hu
    have h0 : role_level u = 0 := ROLE_HIERARCHY_get_eq_zero hu
    simp only [role_at_least, h0, ge_iff_le, Nat.zero_le, decide_True]
  · intro hu
    exact PLAN_HIERARCHY_get_eq_zero hu
  · intro hu hb
    have h0 : plan_rank u = 0 := PLAN_HIERARCHY_get_eq_zero hu
    have h1 : 0 < plan_rank b := PLAN_HIERARCHY_get_pos hb
    simp only [plan_at_least, h0, decide_eq_false_iff_not, ge_iff_le, not_le]
    exact h1
  · intro hu
    have h0 : plan_rank u = 0 := PLAN_HIERARCHY_get_eq_zero hu
    simp only [plan_at_least, h0, ge_iff_le, Nat.zero_le, decide_True]

/-- Witness for C5 (amended) at explicit tokens. -/
theorem unknown_token_rank_zero_witness :
    role_level "superadmin" = 0
    ∧ role_at_least "superadmin" "admin" = false
    ∧ role_at_least "read_only" "superadmin" = true
    ∧ plan_rank "platinum" = 0
    ∧ plan_at_least "platinum" "pro" = false
    ∧ plan_at_least "free" "platinum" = true :=
  ⟨(unknown_token_rank_zero "superadmin" "x" "x").1 (by decide),
   (unknown_token_rank_zero "superadmin" "x" "admin").2.1 (by decide)
      (by decide),
   (unknown_token_rank_zero "superadmin" "read_only" "x").2.2.1 (by decide),
   (unknown_token_rank_zero "platinum" "x" "x").2.2.2.1 (by decide),
   (unknown_token_rank_zero "platinum" "x" "pro").2.2.2.2.1 (by decide)
      (by decide),
   (unknown_token_rank_zero "platinum" "free" "x").2.2.2.2.2 (by decide)⟩

/-! Lemmas for the monotonicity claim (C8). -/

lemma plan_shape (s : String) :
    (PLAN_HIERARCHY_get s = 1
        ∧ (PLAN_CAPABILITIES_find s).getD ∅ = freePlanCaps)
    ∨ (PLAN_HIERARCHY_get s = 2
        ∧ (PLAN_CAPABILITIES_find s).getD ∅ = proPlanCaps)
    ∨ (PLAN_HIERARCHY_get s = 3
        ∧ (PLAN_CAPABILITIES_find s).getD ∅ = teamPlanCaps)
    ∨ (PLAN_HIERARCHY_get s = 4
        ∧ (PLAN_CAPABILITIES_find s).getD ∅ = enterprisePlanCaps)
    ∨ (PLAN_HIERARCHY_get s = 0 ∧ (PLAN_CAPABILITIES_find s).getD ∅ = ∅) := by
  unfold PLAN_HIERARCHY_get PLAN_CAPABILITIES_find
  split_ifs <;> simp

lemma plan_caps_mono {p q : String}
    (h : PLAN_HIERARCHY_get q ≥ PLAN_HIERARCHY_get p) :
    (PLAN_CAPABILITIES_find p).getD ∅ ⊆ (PLAN_CAPABILITIES_find q).getD ∅ := by
  rcases plan_shape p with ⟨h1, h2⟩ | ⟨h1, h2⟩ | ⟨h1, h2⟩ | ⟨h1, h2⟩ | ⟨h1, h2⟩ <;>
    rcases plan_shape q with ⟨h3, h4⟩ | ⟨h3, h4⟩ | ⟨h3, h4⟩ | ⟨h3, h4⟩ | ⟨h3, h4⟩ <;>
    rw [h2, h4] <;>
    first
      | (exfalso; omega)
      | decide

/-- C8: the configured `PLAN_CAPABILITIES` map is monotone along the
free < pro < team < enterprise order, and consequently, for a fixed role,
`effective_capabilities` is monotone in plan rank (over all plan strings:
unknown plans rank 0 and contribute the empty set). -/
theorem plan_monotonicity (p1 p2 role : String) :
    (py_lower p1 ∈ planKeys → py_lower p2 ∈ planKeys →
        plan_rank p1 ≥ plan_rank p2 →
        plan_capabilities p2 ⊆ plan_capabilities p1)
    ∧ (plan_rank p1 ≥ plan_rank p2 →
        effective_capabilities p2 role ⊆ effective_capabilities p1 role) := by
  constructor
  · intro _ _ h
    exact plan_caps_mono h
  · intro h
    unfold effective_capabilities
    exact Finset.inter_subset_inter (plan_caps_mono h) (Finset.Subset.refl _)

/-- Witness for C8 at explicit plans. -/
theorem plan_monotonicity_witness :
    plan_capabilities "free" ⊆ plan_capabilities "team"
    ∧ effective_capabilities "free" "member"
        ⊆ effective_capabilities "pro" "member" :=
  ⟨(plan_monotonicity "team" "free" "member").1 (by decide) (by decide)
      (by decide),
   (plan_monotonicity "pro" "free" "member").2 (by decide)⟩

/-- C10: both usage-limit checks reject exactly when
`current_usage >= limit`, so an account exactly at its limit — e.g. 25 saved
deals on the free plan — is already rejected from the next create. -/
theorem usage_limit_boundary_inclusive (current_usage : Int)
    (plan limit_name : String) :
    (check_usage_against_limit current_usage plan limit_name = .ok ()
        ↔ current_usage < get_plan_limit plan limit_name)
    ∧ (check_usage_limit plan limit_name current_usage = .ok ()
        ↔ current_usage < get_limit plan limit_name)
    ∧ check_usage_limit "free" "saved_deals" 25
        = .error "Limit reached for saved_deals: 25/25"
    ∧ check_usage_limit "free" "saved_deals" 24 = .ok ()
    ∧ check_usage_against_limit 25 "free" "max_saved_deals"
        = .error ⟨402, "Plan limit reached: 25/25 saved_deals. Upgrade to continue."⟩ := by
  refine ⟨?_, ?_, rfl, rfl, rfl⟩
  · unfold check_usage_against_limit
    dsimp only
    split_ifs with h <;> simp <;> omega
  · unfold check_usage_limit
    dsimp only
    split_ifs with h <;> simp <;> omega

end Brinkadata
